import Mathlib

/-!
Verification of the device state-synchronization and command pipeline of the
homebridge-switchbot plugin, as implemented in `src/device/contact.ts`,
`src/device/plug.ts` (class `Fan`), `src/device/robotvacuumcleaner.ts` and
`src/device/other.ts` (class `Others`).

The embedding is shallow: each device method that the claims touch becomes a
pure Lean function from its inputs (prior in-memory state, configuration, raw
transport payload, transport outcome) to the resulting state plus a record of
the observable actions it performed (dispatches, log/classifier calls,
scheduled timers).  JavaScript `Number(...)` applied to a possibly-missing
field is modelled by `JsNum` with an explicit `nan` value, and HomeKit
`CharacteristicValue` by `CV`, keeping the boolean/number distinction that
JavaScript strict equality (`===`/`!==`) observes.  The RxJS operators used by
the constructors (`skipWhile`, `debounceTime`, `take`) are modelled from their
documented semantics.
-/

namespace SwitchBot

/-- A JavaScript number as it occurs in this pipeline: either NaN (the result
of `Number(undefined)` or of `Number` on a non-numeric string) or an integral
value.  Battery levels, status codes and HAP enum values are all integral. -/
inductive JsNum where
  | nan : JsNum
  | num : Int → JsNum
deriving DecidableEq, Repr

/-- JavaScript `<` between a `JsNum` and an integer: every comparison with NaN
is false. -/
def JsNum.ltInt : JsNum → Int → Bool
  | .nan, _ => false
  | .num n, m => decide (n < m)

/-- The raw `battery` field of a `serviceData` / `deviceStatus.body` record:
absent (`undefined`), a numeric value, or present but not parseable as a
number. -/
inductive BatteryField where
  | absent
  | numeric (n : Int)
  | malformed
deriving DecidableEq, Repr

/-- JavaScript `Number(...)` applied to the battery field:
`Number(undefined)` is NaN, `Number` of a non-numeric string is NaN. -/
def numberOfBattery : BatteryField → JsNum
  | .absent => .nan
  | .numeric n => .num n
  | .malformed => .nan

/-- A HomeKit `CharacteristicValue` as used by this code base: the fields are
assigned sometimes booleans and sometimes numbers, and the code compares them
with strict (in)equality, under which `false !== 0`.  Truthiness follows the
JavaScript rules for these two cases. -/
inductive CV where
  | b (v : Bool)
  | i (n : Int)
deriving DecidableEq, Repr

/-- JavaScript truthiness of a `CV`. -/
def CV.truthy : CV → Bool
  | .b v => v
  | .i n => n != 0

/-- HAP constant `Characteristic.ContactSensorState.CONTACT_DETECTED`. -/
def CONTACT_DETECTED : Int := 0
/-- HAP constant `Characteristic.ContactSensorState.CONTACT_NOT_DETECTED`. -/
def CONTACT_NOT_DETECTED : Int := 1
/-- HAP constant `Characteristic.StatusLowBattery.BATTERY_LEVEL_NORMAL`. -/
def BATTERY_LEVEL_NORMAL : Int := 0
/-- HAP constant `Characteristic.StatusLowBattery.BATTERY_LEVEL_LOW`. -/
def BATTERY_LEVEL_LOW : Int := 1
/-- HAP constant `Characteristic.Active.ACTIVE`. -/
def ACTIVE : Int := 1
/-- HAP constant `Characteristic.Active.INACTIVE`. -/
def INACTIVE : Int := 0
/-- HAP constant `Characteristic.SwingMode.SWING_ENABLED`. -/
def SWING_ENABLED : Int := 1
/-- HAP constant `Characteristic.SwingMode.SWING_DISABLED`. -/
def SWING_DISABLED : Int := 0
/-- HAP constant `Characteristic.ChargingState.CHARGING`. -/
def CHARGING : Int := 1
/-- HAP constant `Characteristic.ChargingState.NOT_CHARGING`. -/
def NOT_CHARGING : Int := 0

/-- The dual status check used by every cloud request in this code base:
`(statusCode === 200 || statusCode === 100) && (deviceStatus.statusCode === 200
|| deviceStatus.statusCode === 100)`, where `statusCode` is the transport-level
HTTP status and `deviceStatus.statusCode` the vendor-embedded body status. -/
def dualStatusCheck (statusCode deviceStatusCode : Int) : Bool :=
  (statusCode == 200 || statusCode == 100) &&
    (deviceStatusCode == 200 || deviceStatusCode == 100)

/-- RxJS `skipWhile` semantics (per the RxJS documentation): emissions are
skipped as long as the predicate has held for every emission so far; as soon as
one emission sees the predicate false, that emission and all later ones pass,
regardless of the predicate.  `flags` records the value of the predicate (here:
the per-device update-in-progress flag) at each tick of the source `interval`;
the tick with index `i` reaches the subscriber iff some tick `j ≤ i` saw the
flag clear.  This models the refresh pipelines built in the `Fan` constructor
(`interval(deviceRefreshRate*1000).pipe(skipWhile(() =>
this.plugUpdateInProgress))`) and the `RobotVacuumCleaner` and `Contact`
constructors, whose subscribers call `refreshStatus()`. -/
def refreshTickFires (flags : List Bool) (i : Nat) : Bool :=
  !((flags.take (i + 1)).all (fun b => b))

/-- A one-shot delayed refresh registration, as produced by
`interval(delayMs).pipe(skipWhile(flag)).pipe(take(1)).subscribe(refreshStatus)`:
a timer with period `delayMs` whose subscriber runs at most `maxFires` times. -/
structure ScheduledRefresh where
  delayMs : Nat
  maxFires : Nat
deriving DecidableEq, Repr

/-- The JSON body POSTed to `{Devices}/{deviceId}/commands`. -/
structure Command where
  command : String
  parameter : String
  commandType : String
deriving DecidableEq, Repr

namespace Contact

/-- The `device.contact` configuration fields this class reads. -/
structure ContactConfig where
  hide_motionsensor : Bool
  hide_lightsensor : Bool
  set_minLux : Option Int
  set_maxLux : Option Int
deriving DecidableEq, Repr

/-- `Contact.minLux()`: the configured value when it is set and truthy
(a configured 0 is falsy in JavaScript), otherwise 1. -/
def minLux (c : ContactConfig) : Int :=
  match c.set_minLux with
  | some v => if v != 0 then v else 1
  | none => 1

/-- `Contact.maxLux()`: the configured value when it is set and truthy,
otherwise 6001. -/
def maxLux (c : ContactConfig) : Int :=
  match c.set_maxLux with
  | some v => if v != 0 then v else 6001
  | none => 6001

/-- The in-memory capability state of the `Contact` class: the fields of
`this.ContactSensor`, `this.MotionSensor`, `this.LightSensor` and
`this.Battery` that the parsers mutate. -/
structure ContactState where
  ContactSensorState : Int
  MotionDetected : Bool
  CurrentAmbientLightLevel : Int
  BatteryLevel : JsNum
  StatusLowBattery : Int
deriving DecidableEq, Repr

/-- `deviceStatus.body` as read by `Contact.openAPIparseStatus`. -/
structure ContactBody where
  openState : Option String
  moveDetected : Bool
  brightness : Option String
  battery : BatteryField
deriving DecidableEq, Repr

/-- The `doorState` field of a BLE `serviceData` record: the source switches on
it with `case 'open': case 1:` and `case 'close': case 0:` and a default. -/
inductive DoorStateField where
  | sOpen
  | nOpen
  | sClose
  | nClose
  | other
deriving DecidableEq, Repr

/-- The BLE `serviceData` record as read by `Contact.BLEparseStatus`:
`movement` after `Boolean(...)` coercion, `lightLevel` switched on `case
true:` with a default. -/
structure ContactServiceData where
  doorState : DoorStateField
  movement : Bool
  lightLevel : Bool
  battery : BatteryField
deriving DecidableEq, Repr

/-- `Contact.BLEparseStatus(serviceData)`.  Door state 'open'/1 maps to
CONTACT_NOT_DETECTED, 'close'/0 to CONTACT_DETECTED, anything else leaves the
prior value (only an error is logged).  Motion and light level are updated
only when the respective sensor is not hidden.  For the battery, the source
line `serviceData.battery === 100;` inside the `undefined` guard is an
expression statement (a comparison, not an assignment), so it has no effect
and the embedding has no corresponding update; `BatteryLevel` is then set to
`Number(serviceData.battery)` and the low-battery flag to LOW exactly when
that value is `< 10` (false for NaN). -/
def BLEparseStatus (cfg : ContactConfig) (prior : ContactState)
    (sd : ContactServiceData) : ContactState :=
  let contactState : Int :=
    match sd.doorState with
    | .sOpen => CONTACT_NOT_DETECTED
    | .nOpen => CONTACT_NOT_DETECTED
    | .sClose => CONTACT_DETECTED
    | .nClose => CONTACT_DETECTED
    | .other => prior.ContactSensorState
  let motion : Bool :=
    if !cfg.hide_motionsensor then sd.movement else prior.MotionDetected
  let light : Int :=
    if !cfg.hide_lightsensor then
      (if sd.lightLevel then minLux cfg else maxLux cfg)
    else prior.CurrentAmbientLightLevel
  let batteryLevel : JsNum := numberOfBattery sd.battery
  let low : Int :=
    if batteryLevel.ltInt 10 then BATTERY_LEVEL_LOW else BATTERY_LEVEL_NORMAL
  { ContactSensorState := contactState
    MotionDetected := motion
    CurrentAmbientLightLevel := light
    BatteryLevel := batteryLevel
    StatusLowBattery := low }

/-- `Contact.openAPIparseStatus(deviceStatus)`.  `openState === 'open'` maps to
CONTACT_NOT_DETECTED, `'close'` to CONTACT_DETECTED, anything else leaves the
prior value (only a debug log).  `brightness` 'dim' maps to minLux, 'bright'
and every other value to maxLux.  The battery handling is identical to
`BLEparseStatus`, including the effect-free `deviceStatus.body.battery ===
100;` comparison inside the `undefined` guard. -/
def openAPIparseStatus (cfg : ContactConfig) (prior : ContactState)
    (body : ContactBody) : ContactState :=
  let contactState : Int :=
    if body.openState = some "open" then CONTACT_NOT_DETECTED
    else if body.openState = some "close" then CONTACT_DETECTED
    else prior.ContactSensorState
  let motion : Bool :=
    if !cfg.hide_motionsensor then body.moveDetected else prior.MotionDetected
  let light : Int :=
    if !cfg.hide_lightsensor then
      (match body.brightness with
       | some "dim" => minLux cfg
       | _ => maxLux cfg)
    else prior.CurrentAmbientLightLevel
  let batteryLevel : JsNum := numberOfBattery body.battery
  let low : Int :=
    if batteryLevel.ltInt 10 then BATTERY_LEVEL_LOW else BATTERY_LEVEL_NORMAL
  { ContactSensorState := contactState
    MotionDetected := motion
    CurrentAmbientLightLevel := light
    BatteryLevel := batteryLevel
    StatusLowBattery := low }

/-- The webhook event payload fields destructured by the `Contact` webhook
handler: `const { detectionState, brightness, openState } = context`. -/
structure WebhookContext where
  detectionState : Option String
  brightness : Option String
  openState : Option String
deriving DecidableEq, Repr

/-- The `Contact` webhook event handler registered in the constructor:
`ContactSensorState = openState === 'open' ? 1 : 0`;
`MotionDetected = detectionState === 'DETECTED'` when the motion sensor is not
hidden; `CurrentAmbientLightLevel = brightness === 'bright' ? maxLux : minLux`
when the light sensor is not hidden.  The handler does not touch the battery
fields. -/
def webhookHandler (cfg : ContactConfig) (prior : ContactState)
    (ctx : WebhookContext) : ContactState :=
  let contactState : Int := if ctx.openState = some "open" then 1 else 0
  let motion : Bool :=
    if !cfg.hide_motionsensor then decide (ctx.detectionState = some "DETECTED")
    else prior.MotionDetected
  let light : Int :=
    if !cfg.hide_lightsensor then
      (if ctx.brightness = some "bright" then maxLux cfg else minLux cfg)
    else prior.CurrentAmbientLightLevel
  { ContactSensorState := contactState
    MotionDetected := motion
    CurrentAmbientLightLevel := light
    BatteryLevel := prior.BatteryLevel
    StatusLowBattery := prior.StatusLowBattery }

/-- The webhook payload carrying the same underlying device status as a poll
body: `openState` and `brightness` verbatim, and the motion indication encoded
the way the webhook channel delivers it (the string `'DETECTED'` exactly when
the poll body's `moveDetected` is true). -/
def toWebhookContext (b : ContactBody) : WebhookContext :=
  { detectionState := if b.moveDetected then some "DETECTED" else some "NOT_DETECTED"
    brightness := b.brightness
    openState := b.openState }

/-- A cloud `GET .../status` response: transport status code, vendor body
status code, and the decoded body. -/
structure RefreshResponse where
  statusCode : Int
  deviceStatusCode : Int
  body : ContactBody
deriving DecidableEq, Repr

/-- The outcome of `Contact.openAPIRefreshStatus`: the resulting in-memory
state, whether it was parsed and published (`openAPIparseStatus` followed by
`updateHomeKitCharacteristics`), the arguments passed to the `statusCode`
error classifier, and whether the non-success branch invoked `offlineOff`. -/
structure RefreshOutcome where
  state : ContactState
  published : Bool
  statusCodeCalls : List Int
  offlineOffCalled : Bool
deriving DecidableEq, Repr

/-- `Contact.openAPIRefreshStatus()` on a response that arrived (no thrown
transport error): on the dual status check it parses the body and publishes;
otherwise it passes both codes to the `statusCode` classifier and, when the
vendor code is 161 or 171, calls `offlineOff`. -/
def openAPIRefreshStatus (cfg : ContactConfig) (prior : ContactState)
    (resp : RefreshResponse) : RefreshOutcome :=
  if dualStatusCheck resp.statusCode resp.deviceStatusCode then
    { state := openAPIparseStatus cfg prior resp.body
      published := true
      statusCodeCalls := []
      offlineOffCalled := false }
  else
    { state := prior
      published := false
      statusCodeCalls := [resp.statusCode, resp.deviceStatusCode]
      offlineOffCalled :=
        resp.deviceStatusCode == 161 || resp.deviceStatusCode == 171 }

end Contact

namespace Fan

/-- The in-memory capability state of the `Fan` class (`this.Fan` and
`this.Battery`). -/
structure FanState where
  Active : CV
  SwingMode : Int
  RotationSpeed : Int
  BatteryLevel : JsNum
  StatusLowBattery : Int
  ChargingState : Int
deriving DecidableEq, Repr

/-- `deviceStatus.body` as read by `Fan.openAPIparseStatus`. -/
structure FanBody where
  power : Option String
  oscillation : Option String
  fanSpeed : Int
  chargingStatus : Option String
  battery : BatteryField
deriving DecidableEq, Repr

/-- `Fan.openAPIparseStatus(deviceStatus)`: every field of the in-memory state
is overwritten from the body.  `BatteryLevel` is set to
`Number(deviceStatus.body.battery)`, the low-battery flag is computed from it
(`< 10`, false for NaN), and only afterwards `Number.isNaN` replaces a NaN
level with 100. -/
def openAPIparseStatus (body : FanBody) : FanState :=
  let active : CV := CV.i (if body.power = some "on" then ACTIVE else INACTIVE)
  let swing : Int :=
    if body.oscillation = some "on" then SWING_ENABLED else SWING_DISABLED
  let charging : Int :=
    if body.chargingStatus = some "charging" then CHARGING else NOT_CHARGING
  let batteryLevel : JsNum := numberOfBattery body.battery
  let low : Int :=
    if batteryLevel.ltInt 10 then BATTERY_LEVEL_LOW else BATTERY_LEVEL_NORMAL
  let batteryLevel : JsNum :=
    if batteryLevel = JsNum.nan then JsNum.num 100 else batteryLevel
  { Active := active
    SwingMode := swing
    RotationSpeed := body.fanSpeed
    BatteryLevel := batteryLevel
    StatusLowBattery := low
    ChargingState := charging }

/-- The request body built by `Fan.openAPIpushChanges`: `turnOn` when
`this.Fan.Active` is truthy, `turnOff` otherwise, with parameter `default`
and command type `command`. -/
def fanBodyChange (activeTruthy : Bool) : Command :=
  { command := if activeTruthy then "turnOn" else "turnOff"
    parameter := "default"
    commandType := "command" }

/-- The dispatch decision of `Fan.openAPIpushChanges`: a command is POSTed
exactly when `this.Fan.Active !== this.accessory.context.Active` (strict
inequality on `CharacteristicValue`s). -/
def openAPIpushDispatch (active contextActive : CV) : Option Command :=
  if active = contextActive then none else some (fanBodyChange active.truthy)

/-- The observable outcome of `Fan.openAPIpushChanges`: the dispatched command
(if any), whether the success log ran, the arguments passed to the
`statusCode` classifier, whether `apiError` ran, whether the method parsed
the response and published an updated state (`openAPIparseStatus` followed by
`updateHomeKitCharacteristics` — the method body contains no call to either,
on any branch; revalidation is left to the separately scheduled confirmation
refresh), and the value of `this.Fan.Active` after the call. -/
structure PushResult where
  dispatched : Option Command
  successLogged : Bool
  statusCodeCalls : List Int
  apiErrorCalled : Bool
  statePublished : Bool
  Active : CV
deriving DecidableEq, Repr

/-- `Fan.openAPIpushChanges()`.  `resp` is the transport outcome of the POST:
`none` models a thrown request error (handled by the `catch`, which calls
`apiError`), `some (t, v)` a response with transport status `t` and vendor
body status `v`.  On the dual status check the success log runs; otherwise
both codes go to the `statusCode` classifier.  No branch mutates
`this.Fan.Active` (the optimistic value set by `ActiveSet` is retained), and
no branch parses the response body or publishes state: the received
`deviceStatus` is read only for its `statusCode`. -/
def openAPIpushChanges (active contextActive : CV) (resp : Option (Int × Int)) :
    PushResult :=
  match openAPIpushDispatch active contextActive with
  | none =>
    { dispatched := none, successLogged := false, statusCodeCalls := []
      apiErrorCalled := false, statePublished := false, Active := active }
  | some cmd =>
    match resp with
    | none =>
      { dispatched := some cmd, successLogged := false, statusCodeCalls := []
        apiErrorCalled := true, statePublished := false, Active := active }
    | some (t, v) =>
      if dualStatusCheck t v then
        { dispatched := some cmd, successLogged := true, statusCodeCalls := []
          apiErrorCalled := false, statePublished := false, Active := active }
      else
        { dispatched := some cmd, successLogged := false
          statusCodeCalls := [t, v], apiErrorCalled := false
          statePublished := false, Active := active }

/-- `Fan.ActiveSet` assigns `this.Fan.Active := value` and signals
`doPlugUpdate`; after a sequence of such calls the in-memory value is the last
value set (or the initial value when there was no call). -/
def activeAfterSets (initial : CV) (sets : List CV) : CV :=
  sets.getLastD initial

/-- The commands dispatched for a burst of `ActiveSet` calls that all fall
inside one debounce window.  The `doPlugUpdate` subject is piped through
`debounceTime(pushRate*1000)`, so the burst produces exactly one subscriber
invocation after the quiet period (none if the burst is empty); that single
`pushChanges` reads the then-current `this.Fan.Active` — the value of the
last call — and `openAPIpushChanges` dispatches only when it differs strictly
from the cached `accessory.context.Active`. -/
def debounceWindowDispatches (contextActive : CV) (sets : List CV) :
    List Command :=
  match sets with
  | [] => []
  | _ :: _ =>
    (openAPIpushDispatch (activeAfterSets contextActive sets) contextActive).toList

/-- The outcome of `Fan.pushChanges()`: the push itself plus the
unconditionally scheduled confirmation refresh
`interval(15000).pipe(skipWhile(() =>
this.plugUpdateInProgress)).pipe(take(1)).subscribe(refreshStatus)` — a
one-shot (take(1)) delayed refresh with a 15000 ms period. -/
structure PushChangesOutcome where
  push : PushResult
  confirmRefresh : Option ScheduledRefresh
deriving DecidableEq, Repr

/-- `Fan.pushChanges()` over the OpenAPI connection: runs
`openAPIpushChanges`, then schedules the one-shot 15 s confirmation
refresh. -/
def pushChanges (active contextActive : CV) (resp : Option (Int × Int)) :
    PushChangesOutcome :=
  { push := openAPIpushChanges active contextActive resp
    confirmRefresh := some { delayMs := 15000, maxFires := 1 } }

/-- The observable outcome of `Fan.BLEpushChanges`: the BLE command sent (if
any) and the value of `this.Fan.Active` afterwards. -/
structure BLEPushResult where
  commandSent : Option String
  Active : CV
deriving DecidableEq, Repr

/-- `Fan.BLEpushChanges()`.  When `this.Fan.Active !== context.Active`, the
device is discovered and `turnOn` or `turnOff` is sent according to the
truthiness of `this.Fan.Active`; the success continuation then executes
`this.Fan.Active = false` unconditionally, while the failure path leaves the
value and falls back via `apiError`/`BLEPushConnection`. -/
def BLEpushChanges (active contextActive : CV) (success : Bool) : BLEPushResult :=
  if active = contextActive then
    { commandSent := none, Active := active }
  else
    let cmd : String := if active.truthy then "turnOn" else "turnOff"
    if success then { commandSent := some cmd, Active := CV.b false }
    else { commandSent := some cmd, Active := active }

/-- The outcome of `Fan.openAPIRefreshStatus` (same shape as the Contact
version, without the 161/171 `offlineOff` call). -/
structure FanRefreshOutcome where
  state : FanState
  published : Bool
  statusCodeCalls : List Int
deriving DecidableEq, Repr

/-- `Fan.openAPIRefreshStatus()` on a response that arrived: on the dual
status check it parses the body and publishes, otherwise it passes both codes
to the `statusCode` classifier and leaves the state. -/
def openAPIRefreshStatus (prior : FanState) (statusCode deviceStatusCode : Int)
    (body : FanBody) : FanRefreshOutcome :=
  if dualStatusCheck statusCode deviceStatusCode then
    { state := openAPIparseStatus body, published := true, statusCodeCalls := [] }
  else
    { state := prior, published := false
      statusCodeCalls := [statusCode, deviceStatusCode] }

end Fan

namespace RobotVacuumCleaner

/-- The in-memory capability state of the `RobotVacuumCleaner` class
(`this.LightBulb` and `this.Battery`). -/
structure RVCState where
  On : CV
  Brightness : Int
  BatteryLevel : JsNum
  StatusLowBattery : Int
deriving DecidableEq, Repr

/-- `deviceStatus.body` as read by `RobotVacuumCleaner.openAPIparseStatus`. -/
structure RVCBody where
  power : Option String
  battery : BatteryField
deriving DecidableEq, Repr

/-- `RobotVacuumCleaner.openAPIparseStatus(deviceStatus)`: `power` 'on' maps
to `On = true`, anything else to false; `BatteryLevel` is set to
`Number(body.battery)`, the low flag computed from it (`< 10`, false for
NaN), and only afterwards a NaN level is replaced with 100.  `Brightness` is
not touched. -/
def openAPIparseStatus (prior : RVCState) (body : RVCBody) : RVCState :=
  let onVal : CV := CV.b (decide (body.power = some "on"))
  let batteryLevel : JsNum := numberOfBattery body.battery
  let low : Int :=
    if batteryLevel.ltInt 10 then BATTERY_LEVEL_LOW else BATTERY_LEVEL_NORMAL
  let batteryLevel : JsNum :=
    if batteryLevel = JsNum.nan then JsNum.num 100 else batteryLevel
  { On := onVal
    Brightness := prior.Brightness
    BatteryLevel := batteryLevel
    StatusLowBattery := low }

/-- `RobotVacuumCleaner.commands()`: `start` when `this.LightBulb.On` is
truthy, `dock` otherwise. -/
def commands (onTruthy : Bool) : Command :=
  if onTruthy then
    { command := "start", parameter := "default", commandType := "command" }
  else
    { command := "dock", parameter := "default", commandType := "command" }

/-- The outcome of `RobotVacuumCleaner.pushChanges()`: the dispatched command
(sent by `openAPIpushChanges` exactly when `On !== context.On`) and the
unconditionally scheduled one-shot 15 s confirmation refresh
(`interval(15000).pipe(skipWhile(...)).pipe(take(1))`). -/
structure RVCPushOutcome where
  dispatched : Option Command
  confirmRefresh : Option ScheduledRefresh
deriving DecidableEq, Repr

/-- `RobotVacuumCleaner.pushChanges()` over the OpenAPI connection. -/
def pushChanges (onValue contextOn : CV) : RVCPushOutcome :=
  { dispatched := if onValue = contextOn then none else some (commands onValue.truthy)
    confirmRefresh := some { delayMs := 15000, maxFires := 1 } }

end RobotVacuumCleaner

namespace Others

/-- The observable outcome of `Others.pushChanges`: whether the optimistic
state was echoed to HomeKit (`updateHomeKitCharacteristics`), the arguments
passed to the `statusCode` classifier, and whether `apiError` ran. -/
structure IRPushResult where
  updateHomeKitCalled : Bool
  statusCodeCalls : List Int
  apiErrorCalled : Bool
deriving DecidableEq, Repr

/-- `Others.pushChanges(bodyChange)` with an OpenAPI connection.  `resp` is
the transport outcome of the POST: `none` models a thrown request error
(caught, `apiError`), `some (t, v)` a response.  On the dual status check the
success log runs and `updateHomeKitCharacteristics` echoes the optimistic
state; otherwise both codes go to the `statusCode` classifier and nothing
else happens. -/
def pushChanges (resp : Option (Int × Int)) : IRPushResult :=
  match resp with
  | none =>
    { updateHomeKitCalled := false, statusCodeCalls := [], apiErrorCalled := true }
  | some (t, v) =>
    if dualStatusCheck t v then
      { updateHomeKitCalled := true, statusCodeCalls := [], apiErrorCalled := false }
    else
      { updateHomeKitCalled := false, statusCodeCalls := [t, v]
        apiErrorCalled := false }

end Others

/-- Helper: the dual status check succeeds exactly when the transport status is
200 or 100 and the vendor body status is 200 or 100. -/
theorem dualStatusCheck_iff (t v : Int) :
    dualStatusCheck t v = true ↔ (t = 200 ∨ t = 100) ∧ (v = 200 ∨ v = 100) := by
  simp [dualStatusCheck]

/-- Helper: `Contact.openAPIRefreshStatus` publishes exactly when the dual
status check holds. -/
theorem contact_refresh_published (cfg : Contact.ContactConfig)
    (prior : Contact.ContactState) (resp : Contact.RefreshResponse) :
    (Contact.openAPIRefreshStatus cfg prior resp).published =
      dualStatusCheck resp.statusCode resp.deviceStatusCode := by
  unfold Contact.openAPIRefreshStatus
  by_cases h : dualStatusCheck resp.statusCode resp.deviceStatusCode <;> simp [h]

/-- Helper: on the success branch, `Contact.openAPIRefreshStatus` installs the
parsed state. -/
theorem contact_refresh_state_of_success (cfg : Contact.ContactConfig)
    (prior : Contact.ContactState) (resp : Contact.RefreshResponse)
    (h : dualStatusCheck resp.statusCode resp.deviceStatusCode = true) :
    (Contact.openAPIRefreshStatus cfg prior resp).state =
      Contact.openAPIparseStatus cfg prior resp.body := by
  unfold Contact.openAPIRefreshStatus
  simp [h]

/-- Helper: `Fan.openAPIRefreshStatus` publishes exactly when the dual status
check holds. -/
theorem fan_refresh_published (prior : Fan.FanState) (t v : Int)
    (body : Fan.FanBody) :
    (Fan.openAPIRefreshStatus prior t v body).published = dualStatusCheck t v := by
  unfold Fan.openAPIRefreshStatus
  by_cases h : dualStatusCheck t v <;> simp [h]

/-- Helper: on the success branch, `Fan.openAPIRefreshStatus` installs the
parsed state. -/
theorem fan_refresh_state_of_success (prior : Fan.FanState) (t v : Int)
    (body : Fan.FanBody) (h : dualStatusCheck t v = true) :
    (Fan.openAPIRefreshStatus prior t v body).state =
      Fan.openAPIparseStatus body := by
  unfold Fan.openAPIRefreshStatus
  simp [h]

/-- Claim C1: while a write is in flight (the per-device update-in-progress
flag is set), a concurrently-firing periodic refresh tick for that device is
skipped; for every sequence of timer ticks, no refresh ever starts while the
flag is true.  The code violates this: the refresh pipeline guards the
`interval` with rxjs `skipWhile`, which only suppresses the initial run of
flag-true ticks.  With the flag clear at the first tick and set at the second
(a write in flight), the second tick still triggers `refreshStatus` although
the flag is true at that tick. -/
theorem c1_refresh_fires_while_write_in_flight :
    refreshTickFires [false, true] 1 = true ∧
      List.getD [false, true] 1 false = true := by
  decide

/-- Claim C2, counterexample: two `ActiveSet` calls inside one debounce window
whose second value equals the cached `accessory.context.Active` produce no
transport dispatch at all — not exactly one. -/
theorem c2_counterexample_no_dispatch :
    Fan.debounceWindowDispatches (CV.i 0) [CV.i 1, CV.i 0] = [] := by
  decide

/-- Claim C2, amended: within one debounce window the calls coalesce into at
most one dispatch: exactly one, carrying the value of the second (latest)
call, when that value differs strictly from the cached context value, and
none when it equals it. -/
theorem c2_debounce_coalesces_to_latest (contextActive v1 v2 : CV) :
    Fan.debounceWindowDispatches contextActive [v1, v2] =
      if v2 = contextActive then [] else [Fan.fanBodyChange v2.truthy] := by
  by_cases h : v2 = contextActive <;>
    simp [Fan.debounceWindowDispatches, Fan.activeAfterSets,
      Fan.openAPIpushDispatch, h]

/-- Claim C3, counterexample: on a cloud `sendCommand` response with transport
status 200 and vendor body status 171, `Fan.openAPIpushChanges` neither
invokes `apiError` (it runs only in the `catch` for thrown request errors)
nor rolls `Fan.Active` back to the last confirmed value 0: the optimistic
value 1 is retained. -/
theorem c3_counterexample_no_rollback :
    (Fan.openAPIpushChanges (CV.i 1) (CV.i 0) (some (200, 171))).apiErrorCalled
        = false ∧
      (Fan.openAPIpushChanges (CV.i 1) (CV.i 0) (some (200, 171))).Active
        = CV.i 1 := by
  decide

/-- Claim C3, amended: a response with transport status 200 and vendor body
status 171 is treated as a non-success — no success log, both codes are
passed to the `statusCode` classifier — but the optimistic capability state
is retained (no rollback) and `apiError` is not invoked; `apiError` runs only
on thrown transport errors.  `Others.pushChanges` behaves the same way (its
optimistic echo `updateHomeKitCharacteristics` is skipped). -/
theorem c3_vendor_reject_classified_not_rolled_back (active contextActive : CV)
    (h : active ≠ contextActive) :
    (Fan.openAPIpushChanges active contextActive (some (200, 171))).successLogged
        = false ∧
    (Fan.openAPIpushChanges active contextActive (some (200, 171))).statusCodeCalls
        = [200, 171] ∧
    (Fan.openAPIpushChanges active contextActive (some (200, 171))).Active
        = active ∧
    (Fan.openAPIpushChanges active contextActive (some (200, 171))).apiErrorCalled
        = false ∧
    (Others.pushChanges (some (200, 171))).updateHomeKitCalled = false ∧
    (Others.pushChanges (some (200, 171))).statusCodeCalls = [200, 171] ∧
    (Others.pushChanges (some (200, 171))).apiErrorCalled = false := by
  simp [Fan.openAPIpushChanges, Fan.openAPIpushDispatch, Others.pushChanges,
    dualStatusCheck, h]

/-- Claim C3, witness for the amended theorem at a concrete input. -/
theorem c3_vendor_reject_witness :
    CV.i 1 ≠ CV.i 0 ∧
    (Fan.openAPIpushChanges (CV.i 1) (CV.i 0) (some (200, 171))).statusCodeCalls
        = [200, 171] ∧
    (Fan.openAPIpushChanges (CV.i 1) (CV.i 0) (some (200, 171))).Active = CV.i 1 :=
  ⟨by decide,
    (c3_vendor_reject_classified_not_rolled_back (CV.i 1) (CV.i 0)
      (by decide)).2.1,
    (c3_vendor_reject_classified_not_rolled_back (CV.i 1) (CV.i 0)
      (by decide)).2.2.1⟩

/-- Claim C4, counterexample: a BLE status whose `battery` field is absent
does not leave `BatteryLevel` at its prior value 50 — the parser overwrites
it with `Number(undefined) = NaN`, because the guard line
`serviceData.battery === 100;` is an effect-free comparison. -/
theorem c4_counterexample_battery_overwritten :
    (Contact.BLEparseStatus ⟨false, false, none, none⟩
        ⟨0, false, 0, JsNum.num 50, 0⟩
        ⟨Contact.DoorStateField.other, false, false, BatteryField.absent⟩).BatteryLevel
      = JsNum.nan ∧
    (Contact.BLEparseStatus ⟨false, false, none, none⟩
        ⟨0, false, 0, JsNum.num 50, 0⟩
        ⟨Contact.DoorStateField.other, false, false, BatteryField.absent⟩).BatteryLevel
      ≠ JsNum.num 50 := by
  decide

/-- Claim C4, amended: when the `battery` field is absent, both Contact
parsers overwrite `BatteryLevel` with `Number(undefined) = NaN` (the intended
default-to-100 statement is an effect-free comparison) and set
`StatusLowBattery` to NORMAL (`NaN < 10` is false); the prior value is not
preserved. -/
theorem c4_missing_battery_becomes_nan (cfg : Contact.ContactConfig)
    (prior : Contact.ContactState) (ds : Contact.DoorStateField)
    (mv ll md : Bool) (os br : Option String) :
    (Contact.BLEparseStatus cfg prior ⟨ds, mv, ll, BatteryField.absent⟩).BatteryLevel
        = JsNum.nan ∧
    (Contact.BLEparseStatus cfg prior ⟨ds, mv, ll, BatteryField.absent⟩).StatusLowBattery
        = BATTERY_LEVEL_NORMAL ∧
    (Contact.openAPIparseStatus cfg prior ⟨os, md, br, BatteryField.absent⟩).BatteryLevel
        = JsNum.nan ∧
    (Contact.openAPIparseStatus cfg prior ⟨os, md, br, BatteryField.absent⟩).StatusLowBattery
        = BATTERY_LEVEL_NORMAL := by
  simp [Contact.BLEparseStatus, Contact.openAPIparseStatus, numberOfBattery,
    JsNum.ltInt, BATTERY_LEVEL_NORMAL]

/-- Claim C5, counterexample: a status whose `openState` is absent refutes the
claimed webhook/poll equivalence: the webhook handler forces the contact
state to 0 and overwrites the light level with minLux, and leaves the battery
fields alone, while the poll decoder keeps the prior contact state 1, maps
the absent brightness to maxLux, and overwrites the battery fields. -/
theorem c5_counterexample_webhook_not_poll :
    Contact.webhookHandler ⟨false, false, none, none⟩
        ⟨1, false, 0, JsNum.num 50, 0⟩
        (Contact.toWebhookContext ⟨none, false, none, BatteryField.absent⟩)
      ≠ Contact.openAPIparseStatus ⟨false, false, none, none⟩
          ⟨1, false, 0, JsNum.num 50, 0⟩
          ⟨none, false, none, BatteryField.absent⟩ := by
  decide

/-- Claim C5, amended: the webhook handler matches the poll-path decoder on
the contact, motion, and light fields whenever the status has `openState` in
{open, close} and `brightness` in {dim, bright}; it never updates the battery
fields, which the poll decoder overwrites — so the states agree up to
restoring the prior battery fields. -/
theorem c5_webhook_agrees_on_shared_fields (cfg : Contact.ContactConfig)
    (prior : Contact.ContactState) (body : Contact.ContactBody)
    (hOpen : body.openState = some "open" ∨ body.openState = some "close")
    (hBright : body.brightness = some "dim" ∨ body.brightness = some "bright") :
    Contact.webhookHandler cfg prior (Contact.toWebhookContext body) =
      { Contact.openAPIparseStatus cfg prior body with
          BatteryLevel := prior.BatteryLevel
          StatusLowBattery := prior.StatusLowBattery } := by
  obtain ⟨o, m, br, bt⟩ := body
  rcases hOpen with h | h <;> rcases hBright with h2 | h2 <;>
    subst h <;> subst h2 <;> cases m <;>
      simp [Contact.webhookHandler, Contact.openAPIparseStatus,
        Contact.toWebhookContext, CONTACT_DETECTED, CONTACT_NOT_DETECTED]

/-- Claim C5, witness for the amended theorem at a concrete input. -/
theorem c5_webhook_agrees_witness :
    Contact.webhookHandler ⟨false, false, none, none⟩
        ⟨1, false, 0, JsNum.num 50, 0⟩
        (Contact.toWebhookContext
          ⟨some "open", true, some "dim", BatteryField.numeric 80⟩) =
      { Contact.openAPIparseStatus ⟨false, false, none, none⟩
          ⟨1, false, 0, JsNum.num 50, 0⟩
          ⟨some "open", true, some "dim", BatteryField.numeric 80⟩ with
          BatteryLevel := JsNum.num 50
          StatusLowBattery := 0 } :=
  c5_webhook_agrees_on_shared_fields ⟨false, false, none, none⟩
    ⟨1, false, 0, JsNum.num 50, 0⟩
    ⟨some "open", true, some "dim", BatteryField.numeric 80⟩
    (Or.inl rfl) (Or.inl rfl)

/-- Claim C6, counterexample: a `sendCommand` response with transport status
200 and vendor body status 100 is treated as a success (the success log
runs), yet `Fan.openAPIpushChanges` does not parse the response or publish
any state — the "on success the state is parsed and published" half of the
claim fails on the sendCommand paths. -/
theorem c6_counterexample_send_success_not_published :
    (Fan.openAPIpushChanges (CV.i 1) (CV.i 0) (some (200, 100))).successLogged
        = true ∧
      (Fan.openAPIpushChanges (CV.i 1) (CV.i 0) (some (200, 100))).statePublished
        = false := by
  decide

/-- Claim C6, amended: every cloud `fetchState` and `sendCommand` response is
treated as a success iff the transport status is in {200, 100} and the vendor
body status is in {200, 100}; either alone is not sufficient (a 200/171
response and a 500/200 response are both non-successes).  On a successful
`fetchState` the state is parsed and published; on a successful
`sendCommand`, `Fan.openAPIpushChanges` only runs the success log and
publishes nothing (`Others.pushChanges` merely echoes the optimistic state
via `updateHomeKitCharacteristics`); revalidation is left to the separately
scheduled confirmation refresh. -/
theorem c6_dual_status_gate_fetch_and_send (cfg : Contact.ContactConfig)
    (prior : Contact.ContactState) (b : Contact.ContactBody)
    (priorFan : Fan.FanState) (fb : Fan.FanBody) (active contextActive : CV)
    (t v : Int) (hdiff : active ≠ contextActive) :
    ((Contact.openAPIRefreshStatus cfg prior ⟨t, v, b⟩).published = true ↔
      (t = 200 ∨ t = 100) ∧ (v = 200 ∨ v = 100)) ∧
    ((Contact.openAPIRefreshStatus cfg prior ⟨t, v, b⟩).published = true →
      (Contact.openAPIRefreshStatus cfg prior ⟨t, v, b⟩).state =
        Contact.openAPIparseStatus cfg prior b) ∧
    ((Fan.openAPIRefreshStatus priorFan t v fb).published = true ↔
      (t = 200 ∨ t = 100) ∧ (v = 200 ∨ v = 100)) ∧
    ((Fan.openAPIRefreshStatus priorFan t v fb).published = true →
      (Fan.openAPIRefreshStatus priorFan t v fb).state =
        Fan.openAPIparseStatus fb) ∧
    ((Fan.openAPIpushChanges active contextActive (some (t, v))).successLogged
        = true ↔
      (t = 200 ∨ t = 100) ∧ (v = 200 ∨ v = 100)) ∧
    (Fan.openAPIpushChanges active contextActive (some (t, v))).statePublished
        = false ∧
    ((Others.pushChanges (some (t, v))).updateHomeKitCalled = true ↔
      (t = 200 ∨ t = 100) ∧ (v = 200 ∨ v = 100)) ∧
    (Contact.openAPIRefreshStatus cfg prior ⟨200, 171, b⟩).published = false ∧
    (Contact.openAPIRefreshStatus cfg prior ⟨500, 200, b⟩).published = false := by
  refine ⟨?_, ?_, ?_, ?_, ?_, ?_, ?_, ?_, ?_⟩
  · rw [contact_refresh_published]
    exact dualStatusCheck_iff t v
  · intro hp
    rw [contact_refresh_published] at hp
    exact contact_refresh_state_of_success cfg prior ⟨t, v, b⟩ hp
  · rw [fan_refresh_published]
    exact dualStatusCheck_iff t v
  · intro hp
    rw [fan_refresh_published] at hp
    exact fan_refresh_state_of_success priorFan t v fb hp
  · rw [← dualStatusCheck_iff t v]
    by_cases h : dualStatusCheck t v = true <;>
      simp [Fan.openAPIpushChanges, Fan.openAPIpushDispatch, hdiff, h]
  · by_cases h : dualStatusCheck t v = true <;>
      simp [Fan.openAPIpushChanges, Fan.openAPIpushDispatch, hdiff, h]
  · rw [← dualStatusCheck_iff t v]
    by_cases h : dualStatusCheck t v = true <;> simp [Others.pushChanges, h]
  · rw [contact_refresh_published]
    show dualStatusCheck 200 171 = false
    decide
  · rw [contact_refresh_published]
    show dualStatusCheck 500 200 = false
    decide

/-- Claim C6, witness: at a concrete 200/100 response, the fetch path parses
and publishes while the sendCommand path only logs success and publishes
nothing. -/
theorem c6_fetch_and_send_witness :
    CV.i 1 ≠ CV.i 0 ∧
    (Contact.openAPIRefreshStatus ⟨false, false, none, none⟩
        ⟨0, false, 0, JsNum.num 50, 0⟩
        ⟨200, 100, ⟨some "open", true, some "dim", BatteryField.numeric 80⟩⟩).published
      = true ∧
    (Contact.openAPIRefreshStatus ⟨false, false, none, none⟩
        ⟨0, false, 0, JsNum.num 50, 0⟩
        ⟨200, 100, ⟨some "open", true, some "dim", BatteryField.numeric 80⟩⟩).state
      = Contact.openAPIparseStatus ⟨false, false, none, none⟩
          ⟨0, false, 0, JsNum.num 50, 0⟩
          ⟨some "open", true, some "dim", BatteryField.numeric 80⟩ ∧
    (Fan.openAPIpushChanges (CV.i 1) (CV.i 0) (some (200, 100))).successLogged
      = true ∧
    (Fan.openAPIpushChanges (CV.i 1) (CV.i 0) (some (200, 100))).statePublished
      = false := by
  have h := c6_dual_status_gate_fetch_and_send ⟨false, false, none, none⟩
    ⟨0, false, 0, JsNum.num 50, 0⟩
    ⟨some "open", true, some "dim", BatteryField.numeric 80⟩
    ⟨CV.i 0, 0, 0, JsNum.num 100, 0, 0⟩
    ⟨some "on", some "on", 0, some "charging", BatteryField.numeric 80⟩
    (CV.i 1) (CV.i 0) 200 100 (by decide)
  have hp := h.1.mpr ⟨Or.inl rfl, Or.inr rfl⟩
  exact ⟨by decide, hp, h.2.1 hp,
    h.2.2.2.2.1.mpr ⟨Or.inl rfl, Or.inr rfl⟩, h.2.2.2.2.2.1⟩

/-- Claim C7: for a numeric battery value `n`, the low-battery flag is LOW
exactly when `n < 10` and NORMAL otherwise; in particular battery 7 decodes
to LOW and battery 10 to NORMAL.  This holds for the Contact BLE parser and
the Fan cloud parser alike. -/
theorem c7_low_battery_threshold (cfg : Contact.ContactConfig)
    (prior : Contact.ContactState) (ds : Contact.DoorStateField) (mv ll : Bool)
    (pw osc cs : Option String) (fs : Int) (n : Int) :
    ((Contact.BLEparseStatus cfg prior
        ⟨ds, mv, ll, BatteryField.numeric n⟩).StatusLowBattery =
      if n < 10 then BATTERY_LEVEL_LOW else BATTERY_LEVEL_NORMAL) ∧
    ((Fan.openAPIparseStatus
        ⟨pw, osc, fs, cs, BatteryField.numeric n⟩).StatusLowBattery =
      if n < 10 then BATTERY_LEVEL_LOW else BATTERY_LEVEL_NORMAL) ∧
    (Contact.BLEparseStatus cfg prior
        ⟨ds, mv, ll, BatteryField.numeric 7⟩).StatusLowBattery
      = BATTERY_LEVEL_LOW ∧
    (Contact.BLEparseStatus cfg prior
        ⟨ds, mv, ll, BatteryField.numeric 10⟩).StatusLowBattery
      = BATTERY_LEVEL_NORMAL := by
  refine ⟨?_, ?_, ?_, ?_⟩ <;>
    simp [Contact.BLEparseStatus, Fan.openAPIparseStatus, numberOfBattery,
      JsNum.ltInt]

/-- Claim C8: a write dispatch that receives a transport Ack (dual status
success) has a one-shot confirmation refresh with a fixed 15000 ms delay
scheduled after it, for both the Fan and the RobotVacuumCleaner
`pushChanges`. -/
theorem c8_ack_schedules_confirmation (active contextActive : CV) (t v : Int)
    (hdiff : active ≠ contextActive) (hack : dualStatusCheck t v = true) :
    (Fan.pushChanges active contextActive (some (t, v))).push.dispatched
        = some (Fan.fanBodyChange active.truthy) ∧
    (Fan.pushChanges active contextActive (some (t, v))).push.successLogged
        = true ∧
    (Fan.pushChanges active contextActive (some (t, v))).confirmRefresh
        = some { delayMs := 15000, maxFires := 1 } ∧
    (RobotVacuumCleaner.pushChanges active contextActive).confirmRefresh
        = some { delayMs := 15000, maxFires := 1 } := by
  simp [Fan.pushChanges, Fan.openAPIpushChanges, Fan.openAPIpushDispatch,
    RobotVacuumCleaner.pushChanges, hdiff, hack]

/-- Claim C8, witness at a concrete acknowledged dispatch. -/
theorem c8_ack_schedules_confirmation_witness :
    CV.i 1 ≠ CV.i 0 ∧ dualStatusCheck 200 100 = true ∧
    (Fan.pushChanges (CV.i 1) (CV.i 0) (some (200, 100))).confirmRefresh
        = some { delayMs := 15000, maxFires := 1 } :=
  ⟨by decide, by decide,
    (c8_ack_schedules_confirmation (CV.i 1) (CV.i 0) 200 100 (by decide)
      (by decide)).2.2.1⟩

/-- Claim C9: in the Fan and RobotVacuumCleaner cloud status parsers, a
battery field that is absent or not parseable as a number yields
`BatteryLevel = 100` and `StatusLowBattery = NORMAL`: the low-battery
comparison sees NaN (and `NaN < 10` is false), and the NaN fallback to 100
runs afterwards. -/
theorem c9_nan_battery_defaults_to_100 (pw osc cs : Option String) (fs : Int)
    (rvcPrior : RobotVacuumCleaner.RVCState) (rpw : Option String) :
    (Fan.openAPIparseStatus ⟨pw, osc, fs, cs, BatteryField.absent⟩).BatteryLevel
        = JsNum.num 100 ∧
    (Fan.openAPIparseStatus ⟨pw, osc, fs, cs, BatteryField.absent⟩).StatusLowBattery
        = BATTERY_LEVEL_NORMAL ∧
    (Fan.openAPIparseStatus ⟨pw, osc, fs, cs, BatteryField.malformed⟩).BatteryLevel
        = JsNum.num 100 ∧
    (Fan.openAPIparseStatus ⟨pw, osc, fs, cs, BatteryField.malformed⟩).StatusLowBattery
        = BATTERY_LEVEL_NORMAL ∧
    (RobotVacuumCleaner.openAPIparseStatus rvcPrior
        ⟨rpw, BatteryField.absent⟩).BatteryLevel = JsNum.num 100 ∧
    (RobotVacuumCleaner.openAPIparseStatus rvcPrior
        ⟨rpw, BatteryField.absent⟩).StatusLowBattery = BATTERY_LEVEL_NORMAL ∧
    (RobotVacuumCleaner.openAPIparseStatus rvcPrior
        ⟨rpw, BatteryField.malformed⟩).BatteryLevel = JsNum.num 100 ∧
    (RobotVacuumCleaner.openAPIparseStatus rvcPrior
        ⟨rpw, BatteryField.malformed⟩).StatusLowBattery = BATTERY_LEVEL_NORMAL := by
  simp [Fan.openAPIparseStatus, RobotVacuumCleaner.openAPIparseStatus,
    numberOfBattery, JsNum.ltInt, BATTERY_LEVEL_NORMAL]

/-- Claim C10: whenever `Fan.BLEpushChanges` actually pushes (the in-memory
`Fan.Active` differs strictly from the cached context value) and the BLE send
succeeds, the success continuation sets `Fan.Active` to the boolean `false`,
regardless of whether the dispatched command was `turnOn` or `turnOff`. -/
theorem c10_ble_success_sets_active_false (active contextActive : CV)
    (h : active ≠ contextActive) :
    (Fan.BLEpushChanges active contextActive true).Active = CV.b false ∧
    (Fan.BLEpushChanges active contextActive true).commandSent
        = some (if active.truthy then "turnOn" else "turnOff") := by
  simp [Fan.BLEpushChanges, h]

/-- Claim C10, witness: both the turnOn case and the turnOff case end with
`Fan.Active = false`. -/
theorem c10_ble_success_witness :
    CV.i 1 ≠ CV.i 0 ∧
    (Fan.BLEpushChanges (CV.i 1) (CV.i 0) true).Active = CV.b false ∧
    (Fan.BLEpushChanges (CV.i 0) (CV.i 1) true).Active = CV.b false :=
  ⟨by decide,
    (c10_ble_success_sets_active_false (CV.i 1) (CV.i 0) (by decide)).1,
    (c10_ble_success_sets_active_false (CV.i 0) (CV.i 1) (by decide)).1⟩

end SwitchBot
